import Mathlib

/-!
Verification of the Banking Dive fraud-news harvesting and classification
pipeline (`BankingDiveWS.py`, `fraud_analysis.py`).

Text is embedded as `List Char` (Python `str`); Python's case-insensitive
substring test `kw.lower() in text.lower()` becomes `isSubstrOf` over
lower-cased character lists.  The scraper's environment (HTTP responses,
parsed HTML) is modelled explicitly: a listing page is a `FetchResult`
carrying the feed items the parser would yield, and the per-article
full-text fetch is a function from URLs to `FetchResult ArticleDoc`.
-/

/-- Character-list strings, the embedding of Python `str`. -/
abbrev Chars := List Char

/-- Coerce a Lean string literal to the `List Char` embedding. -/
def str (s : String) : Chars := s.data

/-- Python `str.lower()` (per-character lowering). -/
def lowerL (l : Chars) : Chars := l.map Char.toLower

/-- Python's substring containment `needle in hay`. -/
def isSubstrOf (needle : Chars) : Chars → Bool
  | [] => needle.isEmpty
  | c :: rest => needle.isPrefixOf (c :: rest) || isSubstrOf needle rest

/-- Case-insensitive keyword containment: `kw.lower() in text.lower()`. -/
def containsKW (text kw : Chars) : Bool := isSubstrOf (lowerL kw) (lowerL text)

/-! Keyword tables transcribed from the source. -/

/-- `FRAUD_KEYWORDS` from `BankingDiveWS.py`. -/
def FRAUD_KEYWORDS : List Chars :=
  [str "fraud", str "scam", str "fraudulent", str "cybercrime", str "cyber attack",
   str "data breach", str "identity theft", str "phishing", str "money laundering",
   str "aml", str "kyc", str "wire fraud", str "check fraud", str "credit card fraud",
   str "account takeover", str "synthetic identity", str "deepfake", str "ransomware",
   str "hack", str "breach", str "security breach", str "financial crime",
   str "embezzlement", str "bsa", str "bank secrecy act", str "suspicious activity",
   str "sar", str "fincen", str "risk management", str "compliance", str "regulation",
   str "sanctions"]

/-- `FRAUD_CATEGORIES` from `fraud_analysis.py` (name, keyword list), in
dictionary insertion order. -/
def FRAUD_CATEGORIES : List (Chars × List Chars) :=
  [(str "Check Fraud",
    [str "check fraud", str "forged check", str "counterfeit check", str "altered check",
     str "fake check"]),
   (str "Wire Fraud",
    [str "wire fraud", str "wire transfer fraud", str "ach fraud",
     str "electronic transfer fraud"]),
   (str "Identity Theft",
    [str "identity theft", str "synthetic identity", str "stolen identity",
     str "identity fraud", str "account takeover", str "impersonation"]),
   (str "Credit Card Fraud",
    [str "credit card fraud", str "card fraud", str "card not present", str "skimming",
     str "card cloning", str "compromised card"]),
   (str "Cyber Crime",
    [str "cyber attack", str "cyberattack", str "hacking", str "ransomware", str "malware",
     str "phishing", str "data breach", str "security breach", str "ddos"]),
   (str "Money Laundering",
    [str "money laundering", str "aml", str "anti-money laundering",
     str "suspicious activity", str "sar", str "structuring", str "smurfing",
     str "layering"]),
   (str "Embezzlement",
    [str "embezzlement", str "employee theft", str "internal fraud",
     str "misappropriation"]),
   (str "Regulatory Compliance",
    [str "compliance", str "regulation", str "bsa", str "bank secrecy act", str "kyc",
     str "know your customer", str "fincen", str "sanctions", str "ofac"]),
   (str "Other Financial Crime",
    [str "fraud", str "scam", str "fraudulent", str "financial crime", str "deepfake"])]

/-- `HIGH_RISK_KEYWORDS` from `fraud_analysis.py`. -/
def HIGH_RISK_KEYWORDS : List Chars :=
  [str "major breach", str "significant loss", str "millions", str "billions",
   str "widespread", str "severe", str "massive", str "systemic",
   str "enforcement action", str "criminal charges", str "indictment",
   str "prosecution", str "fine", str "penalty"]

/-- `MEDIUM_RISK_KEYWORDS` from `fraud_analysis.py`. -/
def MEDIUM_RISK_KEYWORDS : List Chars :=
  [str "warning", str "alert", str "concern", str "investigation", str "suspected",
   str "potential", str "vulnerability", str "thousands", str "settlement",
   str "critical"]

/-- `LOW_RISK_KEYWORDS` from `fraud_analysis.py`. -/
def LOW_RISK_KEYWORDS : List Chars :=
  [str "prevention", str "protection", str "security measure", str "update", str "patch",
   str "awareness", str "training", str "advisory", str "guidance", str "best practice"]

/-- Negative sentiment indicators from `analyze_sentiment`. -/
def negative_words : List Chars :=
  [str "breach", str "attack", str "fraud", str "theft", str "scam", str "loss",
   str "victim", str "criminal", str "illegal", str "stolen", str "compromised",
   str "vulnerable", str "fine", str "penalty", str "violation", str "failure",
   str "concern", str "warning"]

/-- Positive sentiment indicators from `analyze_sentiment`. -/
def positive_words : List Chars :=
  [str "prevention", str "protection", str "secure", str "success", str "improvement",
   str "enhance", str "strengthen", str "detect", str "recover", str "safeguard"]

/-! Classifier functions. -/

/-- `contains_fraud_keywords(text)` from `BankingDiveWS.py`: returns whether
any fraud keyword occurs as a case-insensitive substring, together with the
matched keywords in list-scan order. -/
def contains_fraud_keywords (text : Chars) : Bool × List Chars :=
  if text = [] then (false, [])
  else
    let matched := FRAUD_KEYWORDS.filter (fun kw => containsKW text kw)
    (decide (0 < matched.length), matched)

/-- `categorize_fraud_type(text)` from `fraud_analysis.py`: each category is
added once if any of its keywords matches; `["Uncategorized"]` when no
category matched on non-empty text; `[]` on empty text. -/
def categorize_fraud_type (text : Chars) : List Chars :=
  if text = [] then []
  else
    let found := FRAUD_CATEGORIES.filterMap
      (fun c => if c.2.any (fun kw => containsKW text kw) then some c.1 else none)
    if found.isEmpty then [str "Uncategorized"] else found

/-- Decision table of `assess_risk_level`, on the three tier hit counts. -/
def riskFromScores (high medium low : Nat) : Chars :=
  if high ≥ 2 then str "High"
  else if high ≥ 1 ∨ medium ≥ 3 then str "Medium-High"
  else if medium ≥ 1 then str "Medium"
  else if low ≥ 1 then str "Low"
  else str "Unknown"

/-- `assess_risk_level(text)` from `fraud_analysis.py`. -/
def assess_risk_level (text : Chars) : Chars :=
  if text = [] then str "Unknown"
  else
    riskFromScores
      (HIGH_RISK_KEYWORDS.countP (fun kw => containsKW text kw))
      (MEDIUM_RISK_KEYWORDS.countP (fun kw => containsKW text kw))
      (LOW_RISK_KEYWORDS.countP (fun kw => containsKW text kw))

/-- `analyze_sentiment(text)` from `fraud_analysis.py`.  The word lists are
already lower-case, and the source checks `word in text_lower` without
lowering the word again. -/
def analyze_sentiment (text : Chars) : Chars :=
  if text = [] then str "Neutral"
  else
    let neg := negative_words.countP (fun w => isSubstrOf w (lowerL text))
    let pos := positive_words.countP (fun w => isSubstrOf w (lowerL text))
    if neg > pos + 2 then str "Negative"
    else if pos > neg + 1 then str "Positive"
    else str "Neutral"

/-- Rank of the risk-level strings: Unknown < Low < Medium < Medium-High < High. -/
def riskRank (s : Chars) : Nat :=
  if s = str "High" then 4
  else if s = str "Medium-High" then 3
  else if s = str "Medium" then 2
  else if s = str "Low" then 1
  else 0

/-! Rows of the analysis stage (`analyze_articles` in `fraud_analysis.py`).
A CSV row carries the scraper's text fields and fraud flag; the analysis
text is `title + ' ' + summary + ' ' + full_content` (missing fields
already normalised to the empty string by `fillna('')`). -/

/-- A row of the scraped CSV as read by `analyze_articles`. -/
structure CsvRow where
  title : Chars
  summary : Chars
  full_content : Chars
  is_fraud_related : Bool
deriving DecidableEq

/-- The combined `analysis_text` column built by `analyze_articles`. -/
def analysis_text (r : CsvRow) : Chars :=
  r.title ++ str " " ++ r.summary ++ str " " ++ r.full_content

/-- The `fraud_categories` column: `categorize_fraud_type` applied to the
row's analysis text — applied to every row, fraud-flagged or not. -/
def fraud_categories (r : CsvRow) : List Chars :=
  categorize_fraud_type (analysis_text r)

/-! Scraper model (`scrape_banking_dive` in `BankingDiveWS.py`).  The HTTP
and HTML-parsing collaborators are modelled as explicit data: a fetch either
fails (any raised `requests` exception, non-2xx status via
`raise_for_status`, or a parse failure) or yields the parsed structure. -/

/-- Outcome of one HTTP fetch: parsed document, or a raised error. -/
inductive FetchResult (α : Type) where
  | ok (doc : α) : FetchResult α
  | err : FetchResult α
deriving DecidableEq

/-- An anchor element: its stripped text and optional `href` attribute. -/
structure Link where
  text : Chars
  href : Option Chars
deriving DecidableEq

/-- The `h3.feed__title` heading of a feed item: its stripped text and the
first `<a>` inside it, when present. -/
structure H3Title where
  text : Chars
  link : Option Link
deriving DecidableEq

/-- One `li.row.feed__item` entry of a listing page, as the parser sees it:
its ad marker, the first `h3.feed__title` (if any), every anchor in the
entry in document order, the first `p.feed__description` text, and the
first `span.secondary-label` / `span.feed__date` texts. -/
structure FeedItem where
  isAd : Bool
  titleH3 : Option H3Title
  links : List Link
  description : Option Chars
  secondaryLabel : Option Chars
  feedDate : Option Chars
deriving DecidableEq

/-- A paragraph-bearing body container (`div.article-body` or
`div.content-body`), holding its paragraphs' stripped texts. -/
structure BodyDiv where
  paragraphs : List Chars
deriving DecidableEq

/-- A parsed article detail page: the two candidate body containers. -/
structure ArticleDoc where
  articleBody : Option BodyDiv
  contentBody : Option BodyDiv
deriving DecidableEq

/-- `scrape_full_article` from `BankingDiveWS.py`: on any raised failure
return `""`; otherwise try `div.article-body` then `div.content-body` and
join the paragraphs' stripped texts with single spaces, or `""` if neither
container exists. -/
def scrape_full_article (r : FetchResult ArticleDoc) : Chars :=
  match r with
  | .err => []
  | .ok doc =>
    let body := match doc.articleBody with
      | some b => some b
      | none => doc.contentBody
    match body with
    | some b => List.intercalate (str " ") b.paragraphs
    | none => []

/-- The `title_link` computation: the `<a>` inside `h3.feed__title` when the
heading exists, `None` otherwise (lines 136–140 of the source). -/
def titleLinkOf (item : FeedItem) : Option Link :=
  match item.titleH3 with
  | some h => h.link
  | none => none

/-- URL normalisation (lines 158–159): a non-empty URL not starting with
`http` is prefixed with the site origin. -/
def absolutize (u : Chars) : Chars :=
  if u ≠ [] ∧ ¬ (str "http").isPrefixOf u then str "https://www.bankingdive.com" ++ u
  else u

/-- Python `str.strip()`: drop whitespace from both ends. -/
def trimL (l : Chars) : Chars :=
  ((l.dropWhile Char.isWhitespace).reverse.dropWhile Char.isWhitespace).reverse

/-- Fuel-driven body of `replaceAll`; the fuel (initially the input's
length) only makes the recursion structural, every step consumes at least
one character. -/
def replaceAllAux (pat rep : Chars) : Nat → Chars → Chars
  | 0, l => l
  | _, [] => []
  | fuel + 1, c :: rest =>
    if pat ≠ [] ∧ pat.isPrefixOf (c :: rest) then
      rep ++ replaceAllAux pat rep fuel (rest.drop (pat.length - 1))
    else
      c :: replaceAllAux pat rep fuel rest

/-- Python `str.replace(pat, rep)`: left-to-right non-overlapping
replacement of every occurrence (for non-empty `pat`). -/
def replaceAll (pat rep l : Chars) : Chars := replaceAllAux pat rep l.length l

/-- Date extraction (lines 146–171): prefer `span.secondary-label`, fall
back to `span.feed__date`; strip a `Posted:` prefix and whitespace; empty
when neither element exists. -/
def extractDate (item : FeedItem) : Chars :=
  match (match item.secondaryLabel with
         | some d => some d
         | none => item.feedDate) with
  | some dateText => trimL (replaceAll (str "Posted:") [] dateText)
  | none => []

/-- One collected article record (the dict appended at lines 188–196). -/
structure Record where
  title : Chars
  summary : Chars
  url : Chars
  date : Chars
  full_content : Chars
  fraud_keywords : Chars
  is_fraud_related : Bool
deriving DecidableEq

/-- The summary field (lines 143, 154): the description paragraph's text,
or the empty string when the element is absent. -/
def itemSummary (item : FeedItem) : Chars :=
  match item.description with
  | some d => d
  | none => []

/-- The normalised article URL (lines 155–159): the title link's `href`
(defaulting to the empty string), made absolute. -/
def linkUrl (link : Link) : Chars :=
  absolutize (match link.href with
    | some h => h
    | none => [])

/-- Processing of one feed item (lines 134–196): resolve the title link or
drop the entry; normalise the URL; skip a URL already seen, otherwise mark
it seen; classify `title + " " + summary`; under the fraud-only filter drop
non-fraud entries (URL stays seen); fetch full text only for fraud-related
entries with a non-empty URL; build the record.  Returns the updated seen
set and the appended record, if any. -/
def processItem (fraudOnly : Bool) (fullFetch : Chars → FetchResult ArticleDoc)
    (seen : List Chars) (item : FeedItem) : List Chars × Option Record :=
  match titleLinkOf item with
  | none => (seen, none)
  | some link =>
    let title := link.text
    let summary := itemSummary item
    let url := linkUrl link
    if url ∈ seen then (seen, none)
    else
      let seen2 := url :: seen
      let fr := contains_fraud_keywords (title ++ str " " ++ summary)
      if fraudOnly && !fr.1 then (seen2, none)
      else
        let full_content :=
          if fr.1 && !url.isEmpty then scrape_full_article (fullFetch url) else []
        (seen2, some
          { title := title
            summary := summary
            url := url
            date := extractDate item
            full_content := full_content
            fraud_keywords := List.intercalate (str ", ") fr.2
            is_fraud_related := fr.1 })

/-- Crawl state: the seen-URL set (newest first) and the collected records
in append order. -/
structure CrawlState where
  seen : List Chars
  articles : List Record
deriving DecidableEq

/-- The per-page candidate loop (lines 134–200): process items in page
order; after an append, stop as soon as the target count is reached. -/
def processItems (fraudOnly : Bool) (num : Nat)
    (fullFetch : Chars → FetchResult ArticleDoc) :
    List FeedItem → CrawlState → CrawlState
  | [], st => st
  | item :: rest, st =>
    match processItem fraudOnly fullFetch st.seen item with
    | (seen2, none) => processItems fraudOnly num fullFetch rest { st with seen := seen2 }
    | (seen2, some r) =>
      let st2 : CrawlState := { seen := seen2, articles := st.articles ++ [r] }
      if st2.articles.length ≥ num then st2
      else processItems fraudOnly num fullFetch rest st2

/-- The paging loop (lines 104–218).  `pageResults` holds the successive
listing-page fetch outcomes starting at the current page number; an
exhausted environment behaves like a page with no feed items.  A fetch
error is caught by the surrounding `try`, ending the run with the records
accumulated so far.  A page whose non-ad items are empty ends the run; the
page counter stops the run after page 200. -/
def crawlLoop (fraudOnly : Bool) (num : Nat)
    (fullFetch : Chars → FetchResult ArticleDoc) :
    List (FetchResult (List FeedItem)) → Nat → CrawlState → CrawlState
  | [], _, st => st
  | pr :: rest, pageNum, st =>
    if st.articles.length < num then
      match pr with
      | .err => st
      | .ok items =>
        let cands := items.filter (fun i => !i.isAd)
        if cands.isEmpty then st
        else
          let st2 := processItems fraudOnly num fullFetch cands st
          if pageNum + 1 > 200 then st2
          else crawlLoop fraudOnly num fullFetch rest (pageNum + 1) st2
    else st

/-- `scrape_banking_dive(num_articles, fraud_only)`: run the paging loop
from page 1 with empty state and return the collected records. -/
def scrape_banking_dive (num : Nat) (fraudOnly : Bool)
    (fullFetch : Chars → FetchResult ArticleDoc)
    (pageResults : List (FetchResult (List FeedItem))) : List Record :=
  (crawlLoop fraudOnly num fullFetch pageResults 1 ⟨[], []⟩).articles

/-- Modelled from the spec: title resolution as §4.1 describes it — the
first heading element carrying the item's title marker, and if that heading
is absent, the first link with non-empty text.  The source has no such
fallback; this definition exists only to compare the spec's words with
`titleLinkOf`/`processItem`. -/
def specResolvedTitle (item : FeedItem) : Option Chars :=
  match item.titleH3 with
  | some h => some h.text
  | none =>
    match item.links.find? (fun l => !l.text.isEmpty) with
    | some l => some l.text
    | none => none

/-! Invariant of the crawl state used by the deduplication and
fraud-only-filter proofs. -/

/-- Every collected record's URL is in the seen set, the collected URLs are
pairwise distinct, and under the fraud-only filter every collected record
is fraud-related. -/
def CrawlInv (fraudOnly : Bool) (st : CrawlState) : Prop :=
  (∀ r ∈ st.articles, r.url ∈ st.seen) ∧
  (st.articles.map (fun r => r.url)).Nodup ∧
  (∀ r ∈ st.articles, fraudOnly = true → r.is_fraud_related = true)

/-! Concrete inputs used by witnesses and counterexamples. -/

/-- The scenario text of the spec's classifier example. -/
def scenario_text : Chars :=
  str "Bank reports wire fraud and sanctions violation, millions lost"

/-- A CSV row that is not fraud-flagged and matches no category keyword. -/
def rowWeather : CsvRow :=
  { title := str "The weather today"
    summary := []
    full_content := []
    is_fraud_related := false }

/-- A full-text fetch environment in which every article fetch fails. -/
def noFetch : Chars → FetchResult ArticleDoc := fun _ => FetchResult.err

/-- The title link of a fraud-related sample feed item. -/
def fraudLink : Link := { text := str "Bank hit by wire fraud", href := some (str "/a") }

/-- A feed item whose title and summary contain fraud keywords. -/
def fraudItem : FeedItem :=
  { isAd := false
    titleH3 := some { text := str "Bank hit by wire fraud", link := some fraudLink }
    links := [fraudLink]
    description := some (str "millions lost")
    secondaryLabel := none
    feedDate := none }

/-- The title link of a non-fraud sample feed item. -/
def plainLink : Link := { text := str "Fed raises rates", href := some (str "/b") }

/-- A feed item whose title and summary contain no fraud keyword. -/
def plainItem : FeedItem :=
  { isAd := false
    titleH3 := some { text := str "Fed raises rates", link := some plainLink }
    links := [plainLink]
    description := none
    secondaryLabel := some (str "Posted: Oct 1")
    feedDate := none }

/-- The record `processItem` builds from `plainItem` (no fraud filter). -/
def plainRecord : Record :=
  { title := str "Fed raises rates"
    summary := []
    url := str "https://www.bankingdive.com/b"
    date := str "Oct 1"
    full_content := []
    fraud_keywords := []
    is_fraud_related := false }

/-- A feed item with no `h3.feed__title` heading but with a link carrying
non-empty text. -/
def noHeadingItem : FeedItem :=
  { isAd := false
    titleH3 := none
    links := [{ text := str "Breaking news", href := some (str "/c") }]
    description := none
    secondaryLabel := none
    feedDate := none }

/-- A one-page listing environment holding the two sample items. -/
def witnessPages : List (FetchResult (List FeedItem)) :=
  [FetchResult.ok [fraudItem, plainItem]]

/-! Helper lemmas. -/

/-- A pointwise implication between predicates bounds `countP`. -/
lemma countP_le_countP {α : Type} (p q : α → Bool) (l : List α)
    (h : ∀ a ∈ l, p a = true → q a = true) : l.countP p ≤ l.countP q := by
  induction l with
  | nil => simp
  | cons a t ih =>
    have ht := ih (fun b hb => h b (List.mem_cons_of_mem a hb))
    by_cases hp : p a = true
    · have hq := h a (List.mem_cons_self a t) hp
      simp [List.countP_cons, hp, hq]
      omega
    · simp [List.countP_cons, hp]
      split <;> omega

/-- The risk decision table is monotone in all three tier scores. -/
lemma riskRank_riskFromScores_mono (h m l h2 m2 l2 : Nat)
    (hh : h ≤ h2) (hm : m ≤ m2) (hl : l ≤ l2) :
    riskRank (riskFromScores h m l) ≤ riskRank (riskFromScores h2 m2 l2) := by
  unfold riskFromScores
  split_ifs <;> first | decide | (exfalso; omega)

/-- No high-risk keyword matches the empty text. -/
lemma high_kw_not_in_empty : ∀ k ∈ HIGH_RISK_KEYWORDS, containsKW [] k = false := by decide

/-- No medium-risk keyword matches the empty text. -/
lemma medium_kw_not_in_empty : ∀ k ∈ MEDIUM_RISK_KEYWORDS, containsKW [] k = false := by decide

/-- No low-risk keyword matches the empty text. -/
lemma low_kw_not_in_empty : ∀ k ∈ LOW_RISK_KEYWORDS, containsKW [] k = false := by decide

/-! Claim C1. -/

/-- C1, counterexample: for the scenario text the classifier's sentiment is
not `Negative` — only `fraud` and `violation` occur in the negative-word
list (the list holds `loss`, which is not a substring of `lost`), so the
negative score 2 does not exceed the positive score 0 by more than 2. -/
theorem C1_counterexample :
    analyze_sentiment scenario_text ≠ str "Negative" := by decide

/-- C1, amended: for the scenario text the classifier flags it as
fraud-related, its category set contains `Wire Fraud` and
`Regulatory Compliance`, the risk level is `Medium-High` (exactly one
high-tier hit, `millions`, with no medium- or low-tier hits), and the
sentiment is `Neutral` (not `Negative` as claimed). -/
theorem C1_thm :
    (contains_fraud_keywords scenario_text).1 = true ∧
    str "Wire Fraud" ∈ categorize_fraud_type scenario_text ∧
    str "Regulatory Compliance" ∈ categorize_fraud_type scenario_text ∧
    HIGH_RISK_KEYWORDS.countP (fun kw => containsKW scenario_text kw) = 1 ∧
    MEDIUM_RISK_KEYWORDS.countP (fun kw => containsKW scenario_text kw) = 0 ∧
    LOW_RISK_KEYWORDS.countP (fun kw => containsKW scenario_text kw) = 0 ∧
    assess_risk_level scenario_text = str "Medium-High" ∧
    analyze_sentiment scenario_text = str "Neutral" := by decide

/-! Claim C2. -/

/-- C2, counterexample: `analyze_articles` applies `categorize_fraud_type`
to every row, so a row with `is_fraud_related = false` still receives the
non-empty category set `["Uncategorized"]`, contradicting the claim that
its category set is exactly empty. -/
theorem C2_counterexample :
    rowWeather.is_fraud_related = false ∧
    fraud_categories rowWeather = [str "Uncategorized"] ∧
    fraud_categories rowWeather ≠ [] := by decide

/-- C2, amended: every analyzed record's category set is non-empty;
categorization runs on every record regardless of the fraud flag, so
non-fraud-flagged records also receive a non-empty category set (at least
`["Uncategorized"]`). -/
theorem C2_thm (r : CsvRow) : fraud_categories r ≠ [] := by
  have hne : analysis_text r ≠ [] := by
    simp [analysis_text, str, List.append_eq_nil]
  unfold fraud_categories categorize_fraud_type
  rw [if_neg hne]
  dsimp only
  split
  · simp
  · next hfound =>
    intro hc
    rw [hc] at hfound
    exact hfound rfl

/-! Claim C10. -/

/-- C10: fraud detection is raw case-insensitive substring containment —
the single word `necessary` contains no fraud topic, yet
`contains_fraud_keywords` reports it fraud-related with matched keyword
list exactly `["sar"]`, because `sar` occurs inside `necessary`. -/
theorem C10_thm :
    contains_fraud_keywords (str "necessary") = (true, [str "sar"]) := by decide

/-! Claim C6. -/

/-- C6: extending a text so that every tier keyword that matched before
still matches (as any extension that only adds occurrences of further
high-risk keywords does — substring matches survive appended text) never
decreases the computed risk level in the rank order
Unknown < Low < Medium < Medium-High < High. -/
theorem C6_thm (t t2 : Chars)
    (hH : ∀ k ∈ HIGH_RISK_KEYWORDS, containsKW t k = true → containsKW t2 k = true)
    (hM : ∀ k ∈ MEDIUM_RISK_KEYWORDS, containsKW t k = true → containsKW t2 k = true)
    (hL : ∀ k ∈ LOW_RISK_KEYWORDS, containsKW t k = true → containsKW t2 k = true) :
    riskRank (assess_risk_level t) ≤ riskRank (assess_risk_level t2) := by
  by_cases h0 : t = []
  · subst h0
    have hz : riskRank (assess_risk_level []) = 0 := by decide
    omega
  · by_cases h1 : t2 = []
    · subst h1
      have hcH : ∀ k ∈ HIGH_RISK_KEYWORDS, containsKW t k = false := by
        intro k hk
        cases hc : containsKW t k
        · rfl
        · exact absurd (hH k hk hc) (by simp [high_kw_not_in_empty k hk])
      have hcM : ∀ k ∈ MEDIUM_RISK_KEYWORDS, containsKW t k = false := by
        intro k hk
        cases hc : containsKW t k
        · rfl
        · exact absurd (hM k hk hc) (by simp [medium_kw_not_in_empty k hk])
      have hcL : ∀ k ∈ LOW_RISK_KEYWORDS, containsKW t k = false := by
        intro k hk
        cases hc : containsKW t k
        · rfl
        · exact absurd (hL k hk hc) (by simp [low_kw_not_in_empty k hk])
      have hH0 : HIGH_RISK_KEYWORDS.countP (fun kw => containsKW t kw) = 0 :=
        List.countP_eq_zero.2 (by intro k hk; simp [hcH k hk])
      have hM0 : MEDIUM_RISK_KEYWORDS.countP (fun kw => containsKW t kw) = 0 :=
        List.countP_eq_zero.2 (by intro k hk; simp [hcM k hk])
      have hL0 : LOW_RISK_KEYWORDS.countP (fun kw => containsKW t kw) = 0 :=
        List.countP_eq_zero.2 (by intro k hk; simp [hcL k hk])
      unfold assess_risk_level
      rw [if_neg h0, if_pos rfl, hH0, hM0, hL0]
      decide
    · unfold assess_risk_level
      rw [if_neg h0, if_neg h1]
      exact riskRank_riskFromScores_mono _ _ _ _ _ _
        (countP_le_countP _ _ _ hH) (countP_le_countP _ _ _ hM)
        (countP_le_countP _ _ _ hL)

/-- C6, witness: `"bank issues alert"` has risk `Medium`; appending the
high-tier keyword `millions` raises it to `Medium-High`, and the theorem
applies. -/
theorem C6_witness :
    riskRank (assess_risk_level (str "bank issues alert")) ≤
      riskRank (assess_risk_level (str "bank issues alert, millions lost")) :=
  C6_thm (str "bank issues alert") (str "bank issues alert, millions lost")
    (by decide) (by decide) (by decide)

/-! Characterisation of `processItem`. -/

/-- An entry without a resolvable title link is dropped with no state
change. -/
lemma processItem_none_title (fo : Bool) (ff : Chars → FetchResult ArticleDoc)
    (seen : List Chars) (item : FeedItem) (h : titleLinkOf item = none) :
    processItem fo ff seen item = (seen, none) := by
  unfold processItem
  rw [h]

/-- An entry whose URL was already seen is skipped with no state change. -/
lemma processItem_seen_mem (fo : Bool) (ff : Chars → FetchResult ArticleDoc)
    (seen : List Chars) (item : FeedItem) (link : Link)
    (h : titleLinkOf item = some link) (hmem : linkUrl link ∈ seen) :
    processItem fo ff seen item = (seen, none) := by
  unfold processItem
  rw [h]
  dsimp only
  rw [if_pos hmem]

/-- A fresh entry rejected by the fraud-only filter: its URL is marked seen
but no record is appended. -/
lemma processItem_filtered (fo : Bool) (ff : Chars → FetchResult ArticleDoc)
    (seen : List Chars) (item : FeedItem) (link : Link)
    (h : titleLinkOf item = some link) (hmem : linkUrl link ∉ seen)
    (hfr : (fo && !(contains_fraud_keywords
      (link.text ++ str " " ++ itemSummary item)).1) = true) :
    processItem fo ff seen item = (linkUrl link :: seen, none) := by
  unfold processItem
  rw [h]
  dsimp only
  rw [if_neg hmem, if_pos hfr]

/-- A fresh entry that passes the filter: its URL is marked seen and the
record is built field by field as in the source. -/
lemma processItem_append (fo : Bool) (ff : Chars → FetchResult ArticleDoc)
    (seen : List Chars) (item : FeedItem) (link : Link)
    (h : titleLinkOf item = some link) (hmem : linkUrl link ∉ seen)
    (hfr : (fo && !(contains_fraud_keywords
      (link.text ++ str " " ++ itemSummary item)).1) = false) :
    processItem fo ff seen item = (linkUrl link :: seen, some
      { title := link.text
        summary := itemSummary item
        url := linkUrl link
        date := extractDate item
        full_content :=
          if (contains_fraud_keywords (link.text ++ str " " ++ itemSummary item)).1
              && !(linkUrl link).isEmpty
          then scrape_full_article (ff (linkUrl link)) else []
        fraud_keywords := List.intercalate (str ", ")
          (contains_fraud_keywords (link.text ++ str " " ++ itemSummary item)).2
        is_fraud_related :=
          (contains_fraud_keywords (link.text ++ str " " ++ itemSummary item)).1 }) := by
  unfold processItem
  rw [h]
  dsimp only
  rw [if_neg hmem, if_neg (by rw [hfr]; exact Bool.false_ne_true)]

/-- Case analysis of one item step: no state change, or a fresh URL marked
seen without a record, or a fresh URL marked seen with a record whose URL
is that URL and which is fraud-related whenever the filter is on. -/
lemma processItem_cases (fo : Bool) (ff : Chars → FetchResult ArticleDoc)
    (seen : List Chars) (item : FeedItem) :
    processItem fo ff seen item = (seen, none) ∨
    (∃ url, url ∉ seen ∧
      (processItem fo ff seen item = (url :: seen, none) ∨
       (∃ r : Record, processItem fo ff seen item = (url :: seen, some r) ∧
         r.url = url ∧ (fo = true → r.is_fraud_related = true)))) := by
  cases h : titleLinkOf item with
  | none => exact Or.inl (processItem_none_title fo ff seen item h)
  | some link =>
    by_cases hmem : linkUrl link ∈ seen
    · exact Or.inl (processItem_seen_mem fo ff seen item link h hmem)
    · cases hfr : (fo && !(contains_fraud_keywords
        (link.text ++ str " " ++ itemSummary item)).1) with
      | true =>
        exact Or.inr ⟨_, hmem, Or.inl (processItem_filtered fo ff seen item link h hmem hfr)⟩
      | false =>
        refine Or.inr ⟨_, hmem, Or.inr
          ⟨_, processItem_append fo ff seen item link h hmem hfr, rfl, ?_⟩⟩
        intro hfo
        subst hfo
        have : (contains_fraud_keywords (link.text ++ str " " ++ itemSummary item)).1 = true := by
          simpa using hfr
        exact this

/-! Preservation of the crawl invariant. -/

/-- The per-page loop preserves the crawl invariant. -/
lemma processItems_inv (fo : Bool) (num : Nat) (ff : Chars → FetchResult ArticleDoc)
    (items : List FeedItem) (st : CrawlState) (h : CrawlInv fo st) :
    CrawlInv fo (processItems fo num ff items st) := by
  induction items generalizing st with
  | nil => simpa [processItems] using h
  | cons item rest ih =>
    obtain ⟨h1, h2, h3⟩ := h
    rcases processItem_cases fo ff st.seen item with hc | ⟨url, hurl, hc | ⟨r, hc, hrurl, hrf⟩⟩
    · simp only [processItems, hc]
      exact ih _ ⟨h1, h2, h3⟩
    · simp only [processItems, hc]
      refine ih _ ⟨?_, h2, h3⟩
      intro r2 hr2
      exact List.mem_cons_of_mem _ (h1 r2 hr2)
    · simp only [processItems, hc]
      have H1 : ∀ r2 ∈ st.articles ++ [r], r2.url ∈ url :: st.seen := by
        intro r2 hr2
        rcases List.mem_append.1 hr2 with hh | hh
        · exact List.mem_cons_of_mem _ (h1 r2 hh)
        · have he : r2 = r := by simpa using hh
          subst he
          rw [hrurl]
          exact List.mem_cons_self _ _
      have Hnm : r.url ∉ st.articles.map (fun r2 => r2.url) := by
        intro hmem
        rcases List.mem_map.1 hmem with ⟨r2, hr2, heq⟩
        apply hurl
        rw [← hrurl, ← heq]
        exact h1 r2 hr2
      have H2 : ((st.articles ++ [r]).map (fun r2 => r2.url)).Nodup := by
        rw [List.map_append, List.nodup_append_comm]
        simp only [List.map_cons, List.map_nil, List.singleton_append]
        exact List.nodup_cons.2 ⟨Hnm, h2⟩
      have H3 : ∀ r2 ∈ st.articles ++ [r], fo = true → r2.is_fraud_related = true := by
        intro r2 hr2 hfo
        rcases List.mem_append.1 hr2 with hh | hh
        · exact h3 r2 hh hfo
        · have he : r2 = r := by simpa using hh
          subst he
          exact hrf hfo
      split
      · exact ⟨H1, H2, H3⟩
      · exact ih _ ⟨H1, H2, H3⟩

/-- The paging loop preserves the crawl invariant. -/
lemma crawlLoop_inv (fo : Bool) (num : Nat) (ff : Chars → FetchResult ArticleDoc)
    (prs : List (FetchResult (List FeedItem))) (n : Nat) (st : CrawlState)
    (h : CrawlInv fo st) : CrawlInv fo (crawlLoop fo num ff prs n st) := by
  induction prs generalizing n st with
  | nil => simpa [crawlLoop] using h
  | cons p rest ih =>
    simp only [crawlLoop]
    split
    · cases p with
      | err => exact h
      | ok items =>
        dsimp only
        split
        · exact h
        · split
          · exact processItems_inv fo num ff _ st h
          · exact ih _ _ (processItems_inv fo num ff _ st h)
    · exact h

/-! Claim C3. -/

/-- C3: in any crawl run the output's URLs are pairwise distinct (each URL
occurs at most once) — the seen-URL set makes a candidate with an
already-seen URL be discarded silently, so two listing pages sharing an
article URL contribute it at most once (exactly once when it is appended
at all). -/
theorem C3_thm (num : Nat) (fo : Bool) (ff : Chars → FetchResult ArticleDoc)
    (pages : List (FetchResult (List FeedItem))) :
    ((scrape_banking_dive num fo ff pages).map (fun r => r.url)).Nodup := by
  have h0 : CrawlInv fo ⟨[], []⟩ := by
    refine ⟨?_, ?_, ?_⟩ <;> simp
  exact (crawlLoop_inv fo num ff pages 1 ⟨[], []⟩ h0).2.1

/-! Claim C4. -/

/-- The per-page loop cannot push the output length past the target. -/
lemma processItems_len (fo : Bool) (num : Nat) (ff : Chars → FetchResult ArticleDoc)
    (items : List FeedItem) (st : CrawlState) (h : st.articles.length < num) :
    (processItems fo num ff items st).articles.length ≤ num := by
  induction items generalizing st with
  | nil =>
    simp only [processItems]
    omega
  | cons item rest ih =>
    cases hpi : processItem fo ff st.seen item with
    | mk seen2 op =>
      cases op with
      | none =>
        simp only [processItems, hpi]
        exact ih _ h
      | some r =>
        simp only [processItems, hpi]
        split
        · simp only [List.length_append, List.length_cons, List.length_nil]
          omega
        · next hlt =>
          apply ih
          simp only [List.length_append, List.length_cons, List.length_nil] at hlt ⊢
          omega

/-- The paging loop keeps the output length at most the target. -/
lemma crawlLoop_len (fo : Bool) (num : Nat) (ff : Chars → FetchResult ArticleDoc)
    (prs : List (FetchResult (List FeedItem))) (n : Nat) (st : CrawlState)
    (h : st.articles.length ≤ num) :
    (crawlLoop fo num ff prs n st).articles.length ≤ num := by
  induction prs generalizing n st with
  | nil => simpa [crawlLoop] using h
  | cons p rest ih =>
    simp only [crawlLoop]
    split
    · next hlt =>
      cases p with
      | err => exact h
      | ok items =>
        dsimp only
        split
        · exact h
        · split
          · exact processItems_len fo num ff _ st hlt
          · exact ih _ _ (processItems_len fo num ff _ st hlt)
    · exact h

/-- Pages beyond the 200-page ceiling are never consulted. -/
lemma crawlLoop_take (fo : Bool) (num : Nat) (ff : Chars → FetchResult ArticleDoc)
    (prs : List (FetchResult (List FeedItem))) (n : Nat) (st : CrawlState)
    (h : n ≤ 200) :
    crawlLoop fo num ff prs n st = crawlLoop fo num ff (prs.take (201 - n)) n st := by
  induction prs generalizing n st with
  | nil => rw [List.take_nil]
  | cons p rest ih =>
    have h2 : 201 - n = (200 - n) + 1 := by omega
    rw [h2, List.take_succ_cons]
    by_cases hlen : st.articles.length < num
    · cases p with
      | err => simp only [crawlLoop, if_pos hlen]
      | ok items =>
        simp only [crawlLoop, if_pos hlen]
        by_cases hemp : (items.filter (fun i => !i.isAd)).isEmpty = true
        · simp only [if_pos hemp]
        · simp only [if_neg hemp]
          by_cases hpg : n + 1 > 200
          · simp only [if_pos hpg]
          · simp only [if_neg hpg]
            have h4 : 200 - n = 201 - (n + 1) := by omega
            rw [h4]
            exact ih _ _ (by omega)
    · simp only [crawlLoop, if_neg hlen]

/-- C4: for target `num` the output never exceeds `num` records, and the
run consults at most the first 200 listing pages, whatever the target. -/
theorem C4_thm (num : Nat) (fo : Bool) (ff : Chars → FetchResult ArticleDoc)
    (pages : List (FetchResult (List FeedItem))) :
    (scrape_banking_dive num fo ff pages).length ≤ num ∧
    scrape_banking_dive num fo ff pages = scrape_banking_dive num fo ff (pages.take 200) := by
  constructor
  · exact crawlLoop_len fo num ff pages 1 ⟨[], []⟩ (by simp)
  · have h := crawlLoop_take fo num ff pages 1 ⟨[], []⟩ (by omega)
    rw [show (201 - 1 : Nat) = 200 from rfl] at h
    unfold scrape_banking_dive
    rw [h]

/-! Claim C5. -/

/-- C5: with the fraud-only filter on, every collected record is
fraud-related; and a fresh non-fraud candidate still has its URL added to
the seen set while no record is appended (so it does not count toward the
target). -/
theorem C5_thm (num : Nat) (ff : Chars → FetchResult ArticleDoc)
    (pages : List (FetchResult (List FeedItem))) (seen : List Chars) (item : FeedItem) :
    (∀ r ∈ scrape_banking_dive num true ff pages, r.is_fraud_related = true) ∧
    (∀ link : Link, titleLinkOf item = some link →
      linkUrl link ∉ seen →
      (contains_fraud_keywords (link.text ++ str " " ++ itemSummary item)).1 = false →
      processItem true ff seen item = (linkUrl link :: seen, none)) := by
  constructor
  · intro r hr
    have h0 : CrawlInv true ⟨[], []⟩ := by
      refine ⟨?_, ?_, ?_⟩ <;> simp
    have h := crawlLoop_inv true num ff pages 1 ⟨[], []⟩ h0
    exact h.2.2 r hr rfl
  · intro link hl hmem hfr
    exact processItem_filtered true ff seen item link hl hmem (by rw [hfr]; rfl)

/-- C5, witness: on a one-page environment with one fraud and one non-fraud
item, every collected record is fraud-related, and processing the fresh
non-fraud item marks its URL seen without appending. -/
theorem C5_witness :
    (∀ r ∈ scrape_banking_dive 5 true noFetch witnessPages, r.is_fraud_related = true) ∧
    processItem true noFetch [] plainItem = (linkUrl plainLink :: [], none) :=
  ⟨(C5_thm 5 noFetch witnessPages [] plainItem).1,
   (C5_thm 5 noFetch witnessPages [] plainItem).2 plainLink rfl (by decide) (by decide)⟩

/-! Claim C7. -/

/-- A transport error on the next listing page ends the run at once. -/
lemma crawlLoop_err (fo : Bool) (num : Nat) (ff : Chars → FetchResult ArticleDoc)
    (rest : List (FetchResult (List FeedItem))) (n : Nat) (st : CrawlState) :
    crawlLoop fo num ff (FetchResult.err :: rest) n st = st := by
  simp only [crawlLoop]
  split <;> rfl

/-- C7: a transport failure while fetching a listing page is terminal —
pages after the failing one are never consulted, and when the failure is
hit the loop returns exactly the state accumulated so far (the model is a
total function, so no exception propagates). -/
theorem C7_thm (fo : Bool) (num : Nat) (ff : Chars → FetchResult ArticleDoc)
    (p1 p2 : List (FetchResult (List FeedItem))) (n : Nat) (st : CrawlState) :
    crawlLoop fo num ff (p1 ++ FetchResult.err :: p2) n st =
      crawlLoop fo num ff (p1 ++ [FetchResult.err]) n st ∧
    crawlLoop fo num ff (FetchResult.err :: p2) n st = st := by
  constructor
  · induction p1 generalizing n st with
    | nil =>
      simp only [List.nil_append]
      rw [crawlLoop_err, crawlLoop_err]
    | cons p rest ih =>
      simp only [List.cons_append, crawlLoop]
      by_cases hlen : st.articles.length < num
      · cases p with
        | err => simp only [if_pos hlen]
        | ok items =>
          simp only [if_pos hlen]
          by_cases hemp : (items.filter (fun i => !i.isAd)).isEmpty = true
          · simp only [if_pos hemp]
          · simp only [if_neg hemp]
            by_cases hpg : n + 1 > 200
            · simp only [if_pos hpg]
            · simp only [if_neg hpg]
              exact ih _ _
      · simp only [if_neg hlen]
  · exact crawlLoop_err fo num ff p2 n st

/-! Claim C9. -/

/-- C9: when the full-document fetch for a fresh fraud-related candidate
fails, `scrape_full_article` returns the empty string and never raises (it
is a total function), and the record is still appended with empty
`full_content`; the loop then moves on to the next candidate. -/
theorem C9_thm (fo : Bool) (ff : Chars → FetchResult ArticleDoc)
    (seen : List Chars) (item : FeedItem) (link : Link)
    (h1 : titleLinkOf item = some link)
    (h2 : linkUrl link ∉ seen)
    (h3 : (contains_fraud_keywords (link.text ++ str " " ++ itemSummary item)).1 = true)
    (h4 : ff (linkUrl link) = FetchResult.err) :
    scrape_full_article FetchResult.err = [] ∧
    ∃ r : Record, processItem fo ff seen item = (linkUrl link :: seen, some r) ∧
      r.full_content = [] ∧ r.is_fraud_related = true := by
  refine ⟨rfl, ?_⟩
  have hfr : (fo && !(contains_fraud_keywords
      (link.text ++ str " " ++ itemSummary item)).1) = false := by
    rw [h3]
    simp
  refine ⟨_, processItem_append fo ff seen item link h1 h2 hfr, ?_, ?_⟩
  · dsimp only
    rw [h3, h4]
    split <;> rfl
  · dsimp only
    exact h3

/-- C9, witness: the sample fraud item under an environment whose article
fetches all fail is still appended, with empty full content. -/
theorem C9_witness :
    scrape_full_article FetchResult.err = [] ∧
    ∃ r : Record, processItem false noFetch [] fraudItem = (linkUrl fraudLink :: [], some r) ∧
      r.full_content = [] ∧ r.is_fraud_related = true :=
  C9_thm false noFetch [] fraudItem fraudLink rfl (by decide) (by decide) rfl

/-! Claim C8. -/

/-- C8, counterexample: an entry with no `h3.feed__title` heading but with
a link carrying non-empty text — the spec's fallback would resolve its
title to that link's text, yet the extraction discards the entry with no
state change, so the claimed link fallback does not exist in the code. -/
theorem C8_counterexample :
    specResolvedTitle noHeadingItem = some (str "Breaking news") ∧
    processItem false noFetch [] noHeadingItem = ([], none) := by decide

/-- C8, amended: the title comes only from the link inside the first
`h3.feed__title` heading — an entry whose heading is missing (or whose
heading holds no link) is discarded with no fallback to other links, and
any appended record's title is exactly that link's text. -/
theorem C8_thm (fo : Bool) (ff : Chars → FetchResult ArticleDoc)
    (seen : List Chars) (item : FeedItem) :
    (titleLinkOf item = none → processItem fo ff seen item = (seen, none)) ∧
    (∀ (link : Link) (seen2 : List Chars) (r : Record),
      titleLinkOf item = some link →
      processItem fo ff seen item = (seen2, some r) → r.title = link.text) := by
  constructor
  · exact processItem_none_title fo ff seen item
  · intro link seen2 r hl hp
    by_cases hmem : linkUrl link ∈ seen
    · rw [processItem_seen_mem fo ff seen item link hl hmem] at hp
      simp at hp
    · by_cases hfr : (fo && !(contains_fraud_keywords
        (link.text ++ str " " ++ itemSummary item)).1) = true
      · rw [processItem_filtered fo ff seen item link hl hmem hfr] at hp
        simp at hp
      · rw [processItem_append fo ff seen item link hl hmem (by simpa using hfr)] at hp
        simp only [Prod.mk.injEq, Option.some.injEq] at hp
        obtain ⟨-, hr⟩ := hp
        rw [← hr]

/-- C8, witness: the heading-less entry is discarded, and the record built
from the headed sample item carries its title link's text. -/
theorem C8_witness :
    processItem false noFetch [] noHeadingItem = ([], none) ∧
    plainRecord.title = str "Fed raises rates" :=
  ⟨(C8_thm false noFetch [] noHeadingItem).1 rfl,
   (C8_thm false noFetch [] plainItem).2 plainLink (linkUrl plainLink :: []) plainRecord
     rfl (by decide)⟩
